import Mathlib

/-!
# LogicalCameraSensor: a shallow embedding of `src/LogicalCameraSensor.cc`

The sensor keeps a private record (`LogicalCameraSensorPrivate`) and offers
`Load`, `Init`, `SetModelPoses`, `Update` and `Image`.  Numbers of type
`double` are embedded as elements of an arbitrary field `K` (exact
arithmetic); rounding is not modelled.  What the file calls but does not
define (the base class `Sensor`, the transport node, the schema defaults of
`sdf::Element`, the setters and the containment test of `math::Frustum`) is
a field of `Collaborators`.  A member access through an unset pointer ends
the call with a `Fault`.
-/

namespace LogicalCamera

/-! ## ignition::math value types -/

/-- Three coordinates, `math::Vector3d`. -/
structure Vector3d (K : Type) where
  x : K
  y : K
  z : K
deriving DecidableEq, Repr

/-- Quaternion `math::Quaterniond`, stored as `w, x, y, z`. -/
structure Quaterniond (K : Type) where
  w : K
  x : K
  y : K
  z : K
deriving DecidableEq, Repr

/-- Position and orientation, `math::Pose3d`. -/
structure Pose3d (K : Type) where
  pos : Vector3d K
  rot : Quaterniond K
deriving DecidableEq, Repr

section PoseAlgebra

variable {K : Type} [Field K]

/-- Modelled from the spec: componentwise sum of two positions `(x,y,z)`.
The math library is not part of the sources. -/
def Vector3d.add (a b : Vector3d K) : Vector3d K :=
  ⟨a.x + b.x, a.y + b.y, a.z + b.z⟩

/-- Modelled from the spec: componentwise negation of a position. -/
def Vector3d.neg (a : Vector3d K) : Vector3d K :=
  ⟨-a.x, -a.y, -a.z⟩

/-- Modelled from the spec: squared length of an orientation quaternion
`(x,y,z,w)`; it is `1` for a unit quaternion. -/
def Quaterniond.normSq (q : Quaterniond K) : K :=
  q.w * q.w + q.x * q.x + q.y * q.y + q.z * q.z

/-- Modelled from the spec: Hamilton product of two orientation quaternions,
the composition of the two rotations. -/
def Quaterniond.mul (a b : Quaterniond K) : Quaterniond K :=
  ⟨a.w * b.w - a.x * b.x - a.y * b.y - a.z * b.z,
   a.w * b.x + a.x * b.w + a.y * b.z - a.z * b.y,
   a.w * b.y - a.x * b.z + a.y * b.w + a.z * b.x,
   a.w * b.z + a.x * b.y - a.y * b.x + a.z * b.w⟩

/-- Modelled from the spec: inverse rotation, the conjugate divided by the
squared length. -/
def Quaterniond.Inverse (q : Quaterniond K) : Quaterniond K :=
  ⟨q.w / q.normSq, -q.x / q.normSq, -q.y / q.normSq, -q.z / q.normSq⟩

/-- Modelled from the spec: rotate a position by an orientation, the vector
part of `q * (0, v) * q⁻¹`. -/
def Quaterniond.RotateVector (q : Quaterniond K) (v : Vector3d K) : Vector3d K :=
  let t := q.mul ((Quaterniond.mk 0 v.x v.y v.z).mul q.Inverse)
  ⟨t.x, t.y, t.z⟩

/-- Modelled from the spec: composition of rigid transforms, the `compose`
of the round-trip property ("a pose expressed in another frame's local
coordinates via transform composition").  `compose a b` is the pose `b`,
given in the frame of `a`, expressed in the frame in which `a` is given.
The pose algebra of `math::Pose3d` is not part of the sources. -/
def Pose3d.compose (a b : Pose3d K) : Pose3d K :=
  ⟨a.pos.add (a.rot.RotateVector b.pos), a.rot.mul b.rot⟩

/-- Modelled from the spec: the inverse rigid transform of a pose (the
"world-to-sensor inverse transform").  Not part of the sources. -/
def Pose3d.Inverse (a : Pose3d K) : Pose3d K :=
  ⟨(a.rot.Inverse.RotateVector a.pos).neg, a.rot.Inverse⟩

/-- Modelled from the spec: `math::Pose3d::operator-`, which the sources call
as `it.second - this->Pose()`.  "Relative pose = entity world pose composed
with the inverse of the sensor world pose (i.e., entity pose expressed in the
sensor's local frame)."  The operator itself is not part of the sources. -/
def Pose3d.sub (p s : Pose3d K) : Pose3d K :=
  s.Inverse.compose p

instance : Sub (Pose3d K) := ⟨Pose3d.sub⟩

end PoseAlgebra

/-- Simulation time, `common::Time`: seconds and nanoseconds. -/
structure Time where
  sec : Int
  nsec : Int
deriving DecidableEq, Repr

/-- The configured view volume, `math::Frustum`: the four parameters set at
load time and the pose set on every tick. -/
structure Frustum (K : Type) where
  near : K
  far : K
  fov : K
  aspectRatio : K
  pose : Pose3d K
deriving DecidableEq, Repr

/-- Setter `Frustum::SetNear` that stores the value as given. -/
def Frustum.SetNear {K : Type} (f : Frustum K) (v : K) : Frustum K := { f with near := v }

/-- Setter `Frustum::SetFar` that stores the value as given. -/
def Frustum.SetFar {K : Type} (f : Frustum K) (v : K) : Frustum K := { f with far := v }

/-- Setter `Frustum::SetFOV` that stores the value as given. -/
def Frustum.SetFOV {K : Type} (f : Frustum K) (v : K) : Frustum K := { f with fov := v }

/-- Setter `Frustum::SetAspectRatio` that stores the value as given. -/
def Frustum.SetAspectRatio {K : Type} (f : Frustum K) (v : K) : Frustum K :=
  { f with aspectRatio := v }

/-- Setter `Frustum::SetPose`: repositions the volume. -/
def Frustum.SetPose {K : Type} (f : Frustum K) (p : Pose3d K) : Frustum K := { f with pose := p }

/-- Modelled from the spec: a `SetNear` that validates, "values must be
positive and `near < far`, else the configuration call fails ... and the
frustum retains its prior valid configuration".  The math library is not
part of the sources. -/
def Frustum.SetNearChecked (f : Frustum ℚ) (v : ℚ) : Frustum ℚ :=
  if 0 < v ∧ v < f.far then { f with near := v } else f

/-- Modelled from the spec: a `SetFar` that validates in the same way. -/
def Frustum.SetFarChecked (f : Frustum ℚ) (v : ℚ) : Frustum ℚ :=
  if 0 < v ∧ f.near < v then { f with far := v } else f

/-- Modelled from the spec: a `SetFOV` or `SetAspectRatio` that validates:
the value must be positive. -/
def Frustum.SetPositiveChecked (set : Frustum ℚ → ℚ → Frustum ℚ) (f : Frustum ℚ) (v : ℚ) :
    Frustum ℚ :=
  if 0 < v then set f v else f

/-! ## sdf::Element -/

/-- An SDF element: its name, its value read as a `double`, and its child
elements. -/
inductive Element (K : Type) where
  | mk (name : String) (value : K) (children : List (Element K)) : Element K

/-- Accessor `Element::GetName`. -/
def Element.GetName {K : Type} : Element K → String
  | .mk n _ _ => n

/-- The value of an element read as a `double`. -/
def Element.value {K : Type} : Element K → K
  | .mk _ v _ => v

/-- The child elements. -/
def Element.children {K : Type} : Element K → List (Element K)
  | .mk _ _ cs => cs

/-- Test `Element::HasElement`: is there a child of that name. -/
def Element.HasElement {K : Type} (e : Element K) (name : String) : Bool :=
  e.children.any (fun c => c.GetName == name)

/-- Lookup `Element::GetElement` of an existing child.  An `ElementPtr` is a
shared pointer and may be unset: `none`. -/
def Element.GetElement {K : Type} (e : Element K) (name : String) : Option (Element K) :=
  e.children.find? (fun c => c.GetName == name)

/-- Read `Element::Get<double>(key)`: the value of the child called `key`,
or `dflt`, the default of the schema, when there is none. -/
def Element.Get {K : Type} (e : Element K) (dflt : K) (key : String) : K :=
  match e.GetElement key with
  | some c => c.value
  | none => dflt

/-! ## Messages -/

/-- One detected model, `msgs::LogicalCameraImage::Model`. -/
structure Model (K : Type) where
  name : String
  pose : Pose3d K
deriving DecidableEq, Repr

/-- The report, `msgs::LogicalCameraImage`: time stamp of the header, pose
of the sensor and the repeated field `model`. -/
structure LogicalCameraImage (K : Type) where
  stamp : Time
  pose : Pose3d K
  model : List (Model K)
deriving DecidableEq, Repr

/-- Generated `clear_model`: empties the repeated field. -/
def LogicalCameraImage.clear_model {K : Type} (m : LogicalCameraImage K) :
    LogicalCameraImage K :=
  { m with model := [] }

/-- Generated `add_model` followed by `set_name` and the `msgs::Set` of its
pose: appends one entry at the end of the repeated field. -/
def LogicalCameraImage.add_model {K : Type} (m : LogicalCameraImage K)
    (name : String) (pose : Pose3d K) : LogicalCameraImage K :=
  { m with model := m.model ++ [⟨name, pose⟩] }

/-! ## std::map<std::string, math::Pose3d> -/

/-- The model directory, a `std::map` from names to world poses: its entries
in iteration order, which is strictly ascending in the key (so keys are
unique).  Keys are compared as strings, character by character. -/
structure ModelMap (K : Type) where
  entries : List (String × Pose3d K)
  ascending : entries.Pairwise (fun a b => a.1 < b.1)

/-- The empty map. -/
def ModelMap.empty {K : Type} : ModelMap K := ⟨[], List.Pairwise.nil⟩

/-! ## Collaborators and sensor state -/

/-- A `transport::Node::Publisher`; its conversion to `bool` is `valid`. -/
structure Publisher where
  topic : String
  valid : Bool
deriving DecidableEq, Repr

/-- What the file calls but does not define.  `B` is the state of the base
class `Sensor`. -/
structure Collaborators (K : Type) (B : Type) where
  /-- Base `Sensor::Load(_sdf)`: the new base state and the result. -/
  SensorLoad : B → Element K → B × Bool
  /-- Base `Sensor::Init()`: the new base state and the result. -/
  SensorInit : B → B × Bool
  /-- Getter `Sensor::Pose()`. -/
  Pose : B → Pose3d K
  /-- Getter `Sensor::Topic()`. -/
  Topic : B → String
  /-- Call `Node::Advertise<msgs::LogicalCameraImage>(topic)`. -/
  Advertise : String → Publisher
  /-- Result of `Publisher::Publish(msg)`. -/
  Publish : Publisher → LogicalCameraImage K → Bool
  /-- Query `math::Frustum::Contains(point)`. -/
  Contains : Frustum K → Vector3d K → Bool
  /-- Setter `math::Frustum::SetNear`. -/
  SetNear : Frustum K → K → Frustum K
  /-- Setter `math::Frustum::SetFar`. -/
  SetFar : Frustum K → K → Frustum K
  /-- Setter `math::Frustum::SetFOV`. -/
  SetFOV : Frustum K → K → Frustum K
  /-- Setter `math::Frustum::SetAspectRatio`. -/
  SetAspectRatio : Frustum K → K → Frustum K
  /-- Schema default used by `Element::Get<double>` for an absent key. -/
  sdfDefault : String → K

/-- The private data of the sensor, `LogicalCameraSensorPrivate`. -/
structure LogicalCameraSensorPrivate (K : Type) where
  /-- publisher to publish logical camera messages -/
  pub : Publisher
  /-- true if Load() has been called and was successful -/
  initialized : Bool
  /-- camera frustum -/
  frustum : Frustum K
  /-- set world pose -/
  worldPose : Pose3d K
  /-- list of models in the world -/
  models : ModelMap K
  /-- message with the models detected by the logical camera -/
  msg : LogicalCameraImage K

/-- A sensor object: the base-class part, the private data, and the record
of every call made to `pub.Publish` with what the transport answered. -/
structure LogicalCameraSensor (K : Type) (B : Type) where
  base : B
  dataPtr : LogicalCameraSensorPrivate K
  publishLog : List (LogicalCameraImage K × Bool)

/-- What ends a call abnormally. -/
inductive Fault where
  /-- member access through an unset `sdf::ElementPtr` -/
  | nullDereference : Fault
deriving DecidableEq, Repr

section Operations

variable {K : Type} [Field K] {B : Type}

/-- The pose made by the default constructor: no translation, no rotation. -/
def Pose3d.Zero : Pose3d K := ⟨⟨0, 0, 0⟩, ⟨1, 0, 0, 0⟩⟩

/-- Constructor `LogicalCameraSensor()`: fresh private data around a base
object.  The default frustum of the math library is a parameter. -/
def LogicalCameraSensor.new (base : B) (frustum : Frustum K) : LogicalCameraSensor K B :=
  { base := base
    dataPtr :=
      { pub := ⟨"", false⟩
        initialized := false
        frustum := frustum
        worldPose := Pose3d.Zero
        models := ModelMap.empty
        msg := ⟨⟨0, 0⟩, Pose3d.Zero, []⟩ }
    publishLog := [] }

/-- Member access `ptr->` on an `sdf::ElementPtr`. -/
def deref (p : Option (Element K)) : Except Fault (Element K) :=
  match p with
  | some e => .ok e
  | none => .error Fault.nullDereference

/-- Method `LogicalCameraSensor::Init`. -/
def LogicalCameraSensor.Init (env : Collaborators K B) (self : LogicalCameraSensor K B) :
    LogicalCameraSensor K B × Bool :=
  ({ self with base := (env.SensorInit self.base).1 }, (env.SensorInit self.base).2)

/-- Method `LogicalCameraSensor::Load`. -/
def LogicalCameraSensor.Load (env : Collaborators K B) (self : LogicalCameraSensor K B)
    (_sdf : Element K) : Except Fault (LogicalCameraSensor K B × Bool) := do
  let mut cameraSdf : Option (Element K) := none
  if _sdf.GetName = "sensor" then
    if !_sdf.HasElement "logical_camera" then
      return (self, false)
    cameraSdf := _sdf.GetElement "logical_camera"
  -- These values are required in SDF, so no need to check for their existence.
  let near := (← deref cameraSdf).Get (env.sdfDefault "near") "near"
  let far := (← deref cameraSdf).Get (env.sdfDefault "far") "far"
  let fov := (← deref cameraSdf).Get (env.sdfDefault "horizontal_fov") "horizontal_fov"
  let aspect := (← deref cameraSdf).Get (env.sdfDefault "aspect_ratio") "aspect_ratio"
  let frustum :=
    env.SetAspectRatio (env.SetFOV (env.SetFar (env.SetNear self.dataPtr.frustum near) far) fov)
      aspect
  let loaded := env.SensorLoad self.base _sdf
  if !loaded.2 then
    return ({ self with base := loaded.1, dataPtr := { self.dataPtr with frustum := frustum } },
      false)
  let pub := env.Advertise (env.Topic loaded.1)
  if !pub.valid then
    return ({ self with
      base := loaded.1, dataPtr := { self.dataPtr with frustum := frustum, pub := pub } }, false)
  return ({ self with
    base := loaded.1
    dataPtr := { self.dataPtr with frustum := frustum, pub := pub, initialized := true } }, true)

/-- Method `LogicalCameraSensor::SetModelPoses`. -/
def LogicalCameraSensor.SetModelPoses (self : LogicalCameraSensor K B) (_models : ModelMap K) :
    LogicalCameraSensor K B :=
  { self with dataPtr := { self.dataPtr with models := _models } }

/-- The body of the loop of `Update`: one entry of the directory. -/
def detect (env : Collaborators K B) (frustum : Frustum K) (sensorPose : Pose3d K)
    (msg : LogicalCameraImage K) (it : String × Pose3d K) : LogicalCameraImage K :=
  if env.Contains frustum it.2.pos then
    msg.add_model it.1 (it.2 - sensorPose)
  else
    msg

/-- Method `LogicalCameraSensor::Update`. -/
def LogicalCameraSensor.Update (env : Collaborators K B) (self : LogicalCameraSensor K B)
    (_now : Time) : LogicalCameraSensor K B × Bool :=
  if !self.dataPtr.initialized then
    (self, false)
  else
    -- set sensor pose
    let msg := { self.dataPtr.msg with pose := env.Pose self.base }
    -- set frustum pose
    let frustum := self.dataPtr.frustum.SetPose (env.Pose self.base)
    let msg := msg.clear_model
    let msg := self.dataPtr.models.entries.foldl (detect env frustum (env.Pose self.base)) msg
    let msg := { msg with stamp := { msg.stamp with sec := _now.sec } }
    let msg := { msg with stamp := { msg.stamp with nsec := _now.nsec } }
    -- publish
    let answer := env.Publish self.dataPtr.pub msg
    ({ self with
      dataPtr := { self.dataPtr with msg := msg, frustum := frustum }
      publishLog := self.publishLog ++ [(msg, answer)] }, true)

/-- Method `LogicalCameraSensor::Image`. -/
def LogicalCameraSensor.Image (self : LogicalCameraSensor K B) : LogicalCameraImage K :=
  self.dataPtr.msg

/-- Getter `LogicalCameraSensor::Near`. -/
def LogicalCameraSensor.Near (self : LogicalCameraSensor K B) : K := self.dataPtr.frustum.near

/-- Getter `LogicalCameraSensor::Far`. -/
def LogicalCameraSensor.Far (self : LogicalCameraSensor K B) : K := self.dataPtr.frustum.far

/-- Getter `LogicalCameraSensor::HorizontalFOV`. -/
def LogicalCameraSensor.HorizontalFOV (self : LogicalCameraSensor K B) : K :=
  self.dataPtr.frustum.fov

/-- Getter `LogicalCameraSensor::AspectRatio`. -/
def LogicalCameraSensor.AspectRatio (self : LogicalCameraSensor K B) : K :=
  self.dataPtr.frustum.aspectRatio

end Operations

/-- The frustum `Load` configures from the `logical_camera` element. -/
def loadedFrustum {K : Type} {B : Type} (env : Collaborators K B) (f : Frustum K)
    (cam : Element K) : Frustum K :=
  env.SetAspectRatio
    (env.SetFOV
      (env.SetFar (env.SetNear f (cam.Get (env.sdfDefault "near") "near"))
        (cam.Get (env.sdfDefault "far") "far"))
      (cam.Get (env.sdfDefault "horizontal_fov") "horizontal_fov"))
    (cam.Get (env.sdfDefault "aspect_ratio") "aspect_ratio")

/-! ## Histories of calls -/

/-- One call on the sensor by its host.  `Base f` is any method of the base
class; it sees only the base part of the object. -/
inductive Call (K : Type) (B : Type) where
  | Load (sdf : Element K) : Call K B
  | Init : Call K B
  | SetModelPoses (models : ModelMap K) : Call K B
  | Update (now : Time) : Call K B
  | Base (f : B → B) : Call K B

/-- Perform one call: the new object and the value returned (`none` for a
method returning `void`). -/
def LogicalCameraSensor.call {K : Type} [Field K] {B : Type} (env : Collaborators K B)
    (self : LogicalCameraSensor K B) :
    Call K B → Except Fault (LogicalCameraSensor K B × Option Bool)
  | .Load sdf =>
    match self.Load env sdf with
    | .ok r => .ok (r.1, some r.2)
    | .error e => .error e
  | .Init => .ok ((self.Init env).1, some (self.Init env).2)
  | .SetModelPoses models => .ok (self.SetModelPoses models, none)
  | .Update now => .ok ((self.Update env now).1, some (self.Update env now).2)
  | .Base f => .ok ({ self with base := f self.base }, none)

/-- Perform a sequence of calls, keeping the returned values in order. -/
def LogicalCameraSensor.run {K : Type} [Field K] {B : Type} (env : Collaborators K B)
    (self : LogicalCameraSensor K B) :
    List (Call K B) → Except Fault (LogicalCameraSensor K B × List (Call K B × Option Bool))
  | [] => .ok (self, [])
  | c :: cs =>
    match self.call env c with
    | .error e => .error e
    | .ok r =>
      match LogicalCameraSensor.run env r.1 cs with
      | .error e => .error e
      | .ok rs => .ok (rs.1, (c, r.2) :: rs.2)

/-- Is this entry of a history a call to `Load` that returned true. -/
def loadReturnedTrue {K : Type} {B : Type} : Call K B × Option Bool → Bool
  | (.Load _, some true) => true
  | _ => false

/-! ## The mutex -/

/-- What a method does, as far as the mutex and the directory go. -/
inductive Access where
  /-- constructor of `std::lock_guard` on `dataPtr->mutex` -/
  | lock : Access
  /-- destructor of the `std::lock_guard`, at the end of the scope -/
  | unlock : Access
  /-- a read of `dataPtr->models` -/
  | readModels : Access
  /-- an assignment to `dataPtr->models` -/
  | writeModels : Access
  /-- anything else -/
  | other : Access
deriving DecidableEq, Repr

/-- The accesses of `SetModelPoses`: the move assignment and nothing else. -/
def SetModelPosesAccesses : List Access := [.writeModels]

/-- The accesses of `Update` on an initialized sensor with `entries` models:
the test of the flag, the lock, the two pose settings and `clear_model`, one
read per entry, the two stamp fields, the publish, the end of the scope. -/
def UpdateAccesses (entries : Nat) : List Access :=
  [.other, .lock, .other, .other, .other] ++ List.replicate entries .readModels ++
    [.other, .other, .other, .unlock]

/-- Does a method hold the mutex at each of its accesses to the directory;
`held` says whether it holds it on entry. -/
def underMutex : Bool → List Access → Bool
  | _, [] => true
  | _, .lock :: rest => underMutex true rest
  | _, .unlock :: rest => underMutex false rest
  | held, .readModels :: rest => held && underMutex held rest
  | held, .writeModels :: rest => held && underMutex held rest
  | held, .other :: rest => underMutex held rest

/-- Threads running one method each: who owns the mutex, and what each
thread has still to do. -/
structure Threads where
  owner : Option Nat
  todo : List (List Access)
deriving DecidableEq, Repr

/-- One access performed by a thread, with the owner of the mutex at that
moment. -/
structure Event where
  thread : Nat
  access : Access
  owner : Option Nat
deriving DecidableEq, Repr

/-- Let thread `t` perform its next access.  A `lock` on a mutex that is
taken blocks: no step. -/
def Threads.step (s : Threads) (t : Nat) : Option (Threads × Event) :=
  match s.todo.get? t with
  | none => none
  | some [] => none
  | some (a :: rest) =>
    match a, s.owner with
    | .lock, some _ => none
    | .lock, none => some (⟨some t, s.todo.set t rest⟩, ⟨t, a, s.owner⟩)
    | .unlock, _ => some (⟨none, s.todo.set t rest⟩, ⟨t, a, s.owner⟩)
    | _, _ => some (⟨s.owner, s.todo.set t rest⟩, ⟨t, a, s.owner⟩)

/-- Run a schedule: the threads take steps in the order given. -/
def Threads.exec (s : Threads) : List Nat → Option (Threads × List Event)
  | [] => some (s, [])
  | t :: ts =>
    match s.step t with
    | none => none
    | some r =>
      match Threads.exec r.1 ts with
      | none => none
      | some rs => some (rs.1, r.2 :: rs.2)

/-- Is this event an access to the directory. -/
def Event.onModels (e : Event) : Bool :=
  e.access == .readModels || e.access == .writeModels

/-! ## Concrete inputs -/

/-- A sample environment over the rationals; the base state is the sensor
pose, every collaborator succeeds, and a point is contained when its distance
from the frustum position along `x` lies between `near` and `far`. -/
def sampleEnv : Collaborators ℚ (Pose3d ℚ) :=
  { SensorLoad := fun b _ => (b, true)
    SensorInit := fun b => (b, true)
    Pose := fun b => b
    Topic := fun _ => "logical_camera"
    Advertise := fun t => ⟨t, true⟩
    Publish := fun _ _ => true
    Contains := fun f p =>
      decide (f.near ≤ p.x - f.pose.pos.x) && decide (p.x - f.pose.pos.x ≤ f.far)
    SetNear := Frustum.SetNear
    SetFar := Frustum.SetFar
    SetFOV := Frustum.SetFOV
    SetAspectRatio := Frustum.SetAspectRatio
    sdfDefault := fun _ => 0 }

/-- The sample environment with a frustum whose setters validate. -/
def sampleEnvChecked : Collaborators ℚ (Pose3d ℚ) :=
  { sampleEnv with
    SetNear := Frustum.SetNearChecked
    SetFar := Frustum.SetFarChecked
    SetFOV := Frustum.SetPositiveChecked Frustum.SetFOV
    SetAspectRatio := Frustum.SetPositiveChecked Frustum.SetAspectRatio }

/-- The sample environment with a transport that refuses every message. -/
def sampleEnvOffline : Collaborators ℚ (Pose3d ℚ) :=
  { sampleEnv with Publish := fun _ _ => false }

/-- A frustum as the math library could construct it by default. -/
def sampleFrustum : Frustum ℚ := ⟨0, 1, 1, 1, Pose3d.Zero⟩

/-- A directory with `box1` at `(2,0,0)` and `box2` at `(10,0,0)`. -/
def sampleModels : ModelMap ℚ :=
  ⟨[("box1", ⟨⟨2, 0, 0⟩, ⟨1, 0, 0, 0⟩⟩), ("box2", ⟨⟨10, 0, 0⟩, ⟨1, 0, 0, 0⟩⟩)], by
    simp only [List.pairwise_cons, List.mem_cons, List.mem_singleton, forall_eq_or_imp, forall_eq,
      String.lt_iff_toList_lt]
    decide⟩

/-- A sensor description with an inverted range: `near = 5`, `far = 1`. -/
def invertedSdf : Element ℚ :=
  .mk "sensor" 0
    [.mk "logical_camera" 0
      [.mk "near" 5 [], .mk "far" 1 [], .mk "horizontal_fov" 1 [], .mk "aspect_ratio" 1 []]]

/-- A sensor description without a `logical_camera` child. -/
def emptySensorSdf : Element ℚ := .mk "sensor" 0 []

/-- The `logical_camera` element itself, handed over without its parent. -/
def bareCameraSdf : Element ℚ :=
  .mk "logical_camera" 0
    [.mk "near" (1 / 10) [], .mk "far" 5 [], .mk "horizontal_fov" 1 [], .mk "aspect_ratio" 1 []]

/-- A freshly constructed sensor at the origin. -/
def freshSensor : LogicalCameraSensor ℚ (Pose3d ℚ) :=
  LogicalCameraSensor.new Pose3d.Zero sampleFrustum

/-- An initialized sensor at the origin, range `1/10 .. 5`, with the sample
directory. -/
def sampleSensor : LogicalCameraSensor ℚ (Pose3d ℚ) :=
  { base := Pose3d.Zero
    dataPtr :=
      { pub := ⟨"logical_camera", true⟩
        initialized := true
        frustum := ⟨1 / 10, 5, 1, 1, Pose3d.Zero⟩
        worldPose := Pose3d.Zero
        models := sampleModels
        msg := ⟨⟨0, 0⟩, Pose3d.Zero, []⟩ }
    publishLog := [] }

/-- The sample environment with a node that cannot advertise. -/
def sampleEnvNoTopic : Collaborators ℚ (Pose3d ℚ) :=
  { sampleEnv with Advertise := fun t => ⟨t, false⟩ }

/-- A sensor description with range `1/10 .. 5`. -/
def sampleSdf : Element ℚ := .mk "sensor" 0 [bareCameraSdf]

/-- A history of a sensor on which every `Load` fails: the publisher cannot
be advertised, then the `logical_camera` element is missing. -/
def failedLoads : List (Call ℚ (Pose3d ℚ)) :=
  [.Load sampleSdf, .Load emptySensorSdf, .SetModelPoses sampleModels, .Init, .Update ⟨1, 0⟩]

/-- An initialized sensor away from the origin and turned about `z`: its
orientation `(3/5, 0, 0, 4/5)` is a unit quaternion. -/
def turnedSensor : LogicalCameraSensor ℚ (Pose3d ℚ) :=
  { sampleSensor with base := ⟨⟨1, 2, 0⟩, ⟨3 / 5, 0, 0, 4 / 5⟩⟩ }

/-! ## The detection loop -/

/-- Keys of a map are unique: two entries with one key are one entry. -/
theorem ModelMap.entry_unique {K : Type} (m : ModelMap K) {a b : String × Pose3d K}
    (ha : a ∈ m.entries) (hb : b ∈ m.entries) (hk : a.1 = b.1) : a = b := by
  by_contra hne
  have hp : m.entries.Pairwise (fun a b => a.1 ≠ b.1) :=
    m.ascending.imp (fun hlt => ne_of_lt hlt)
  exact (hp.forall (fun _ _ hxy => hxy.symm) ha hb hne) hk

/-- Names of a filtered and mapped directory stay strictly ascending. -/
theorem names_ascending {K : Type} (m : ModelMap K) (p : String × Pose3d K → Bool)
    (g : String × Pose3d K → Pose3d K) :
    (((m.entries.filter p).map (fun e => (⟨e.1, g e⟩ : Model K))).map Model.name).Pairwise
      (fun a b => a < b) := by
  rw [List.map_map, List.pairwise_map]
  exact (m.ascending.sublist (List.filter_sublist _))

section Loop

variable {K : Type} [Field K] {B : Type}

/-- The loop of `Update` only appends to the repeated field: it adds, in
iteration order, one entry per directory entry the frustum contains. -/
theorem foldl_detect (env : Collaborators K B) (f : Frustum K) (S : Pose3d K)
    (es : List (String × Pose3d K)) (m : LogicalCameraImage K) :
    es.foldl (detect env f S) m =
      { m with model := m.model ++
          (es.filter (fun e => env.Contains f e.2.pos)).map (fun e => ⟨e.1, e.2 - S⟩) } := by
  induction es generalizing m with
  | nil => simp
  | cons e es ih =>
    rw [List.foldl_cons, ih]
    by_cases hc : env.Contains f e.2.pos = true
    · simp [detect, hc, LogicalCameraImage.add_model]
    · simp [detect, hc]

/-- The report `Update` builds on an initialized sensor, in closed form. -/
theorem Update_msg (env : Collaborators K B) (self : LogicalCameraSensor K B) (now : Time)
    (h : self.dataPtr.initialized = true) :
    (self.Update env now).1.dataPtr.msg =
      { stamp := now
        pose := env.Pose self.base
        model :=
          (self.dataPtr.models.entries.filter
            (fun e => env.Contains (self.dataPtr.frustum.SetPose (env.Pose self.base)) e.2.pos)).map
            (fun e => ⟨e.1, e.2 - env.Pose self.base⟩) } := by
  simp [LogicalCameraSensor.Update, h, foldl_detect, LogicalCameraImage.clear_model]

end Loop

/-! ## Claims about `Update` on an initialized sensor -/

section UpdateClaims

variable {K : Type} [Field K] {B : Type}

/-- C1: on an initialized sensor `Update` returns true and the model list of
the report is the directory, walked in ascending key order, filtered by the
frustum posed at the sensor pose `S` and mapped to `(id, P - S)`; the names in
the report are strictly ascending, every contained entry appears exactly
once, no entry that is not contained appears, and an empty directory gives an
empty list. -/
theorem Update_model_list (env : Collaborators K B) (self : LogicalCameraSensor K B)
    (now : Time) (h : self.dataPtr.initialized = true) :
    (self.Update env now).2 = true ∧
    (self.Update env now).1.Image.model =
      (self.dataPtr.models.entries.filter
        (fun e => env.Contains (self.dataPtr.frustum.SetPose (env.Pose self.base)) e.2.pos)).map
        (fun e => ⟨e.1, e.2 - env.Pose self.base⟩) ∧
    ((self.Update env now).1.Image.model.map Model.name).Pairwise (fun a b => a < b) ∧
    (∀ e ∈ self.dataPtr.models.entries,
      env.Contains (self.dataPtr.frustum.SetPose (env.Pose self.base)) e.2.pos = true →
      (⟨e.1, e.2 - env.Pose self.base⟩ : Model K) ∈ (self.Update env now).1.Image.model ∧
      ((self.Update env now).1.Image.model.map Model.name).count e.1 = 1) ∧
    (∀ e ∈ self.dataPtr.models.entries,
      env.Contains (self.dataPtr.frustum.SetPose (env.Pose self.base)) e.2.pos = false →
      e.1 ∉ (self.Update env now).1.Image.model.map Model.name) ∧
    (self.dataPtr.models.entries = [] → (self.Update env now).1.Image.model = []) := by
  classical
  have hmsg := Update_msg env self now h
  have hmodel : (self.Update env now).1.Image.model =
      (self.dataPtr.models.entries.filter
        (fun e => env.Contains (self.dataPtr.frustum.SetPose (env.Pose self.base)) e.2.pos)).map
        (fun e => ⟨e.1, e.2 - env.Pose self.base⟩) := by
    simp [LogicalCameraSensor.Image, hmsg]
  have hasc : ((self.Update env now).1.Image.model.map Model.name).Pairwise (fun a b => a < b) := by
    rw [hmodel]
    exact names_ascending self.dataPtr.models _ (fun e => e.2 - env.Pose self.base)
  have hnodup : ((self.Update env now).1.Image.model.map Model.name).Nodup :=
    hasc.imp (fun hlt => ne_of_lt hlt)
  refine ⟨by simp [LogicalCameraSensor.Update, h], hmodel, hasc, ?_, ?_, ?_⟩
  · intro e he hc
    have hmem : (⟨e.1, e.2 - env.Pose self.base⟩ : Model K) ∈ (self.Update env now).1.Image.model := by
      rw [hmodel]
      exact List.mem_map.mpr ⟨e, List.mem_filter.mpr ⟨he, hc⟩, rfl⟩
    have hname : e.1 ∈ (self.Update env now).1.Image.model.map Model.name :=
      List.mem_map.mpr ⟨_, hmem, rfl⟩
    exact ⟨hmem, List.count_eq_one_of_mem hnodup hname⟩
  · intro e he hc hname
    rw [hmodel, List.map_map] at hname
    obtain ⟨e2, he2, hk⟩ := List.mem_map.mp hname
    have hf := List.mem_filter.mp he2
    have heq : e2 = e := self.dataPtr.models.entry_unique hf.1 he hk
    rw [heq, hc] at hf
    exact Bool.false_ne_true hf.2
  · intro hempty
    rw [hmodel, hempty]
    rfl

/-- Witness for C1: the sample sensor is initialized, `Update` returns true
and reports exactly `box1`. -/
theorem Update_model_list_witness :
    sampleSensor.dataPtr.initialized = true ∧
    (sampleSensor.Update sampleEnv ⟨7, 0⟩).2 = true ∧
    (sampleSensor.Update sampleEnv ⟨7, 0⟩).1.Image.model.map Model.name = ["box1"] := by
  have h := Update_model_list sampleEnv sampleSensor ⟨7, 0⟩ rfl
  refine ⟨rfl, h.1, ?_⟩
  rw [h.2.1]
  norm_num [sampleSensor, sampleEnv, sampleModels, Frustum.SetPose, Pose3d.Zero]

/-- C4: `Update` is idempotent on the detections.  On an initialized sensor
a second `Update`, at any time, right after a first one (directory and sensor
pose untouched) returns true and leaves the same model list; and the model
list never depends on the report of an earlier tick: whatever the previous
report was, the list is the same. -/
theorem Update_idempotent (env : Collaborators K B) (self : LogicalCameraSensor K B)
    (now1 now2 : Time) (h : self.dataPtr.initialized = true) :
    ((self.Update env now1).1.Update env now2).2 = true ∧
    ((self.Update env now1).1.Update env now2).1.Image.model =
      (self.Update env now1).1.Image.model ∧
    (∀ old : LogicalCameraImage K,
      (LogicalCameraSensor.Update env
        { self with dataPtr := { self.dataPtr with msg := old } } now2).1.Image.model =
      (self.Update env now1).1.Image.model) := by
  have h1 : (self.Update env now1).1.dataPtr.initialized = true := by
    simp [LogicalCameraSensor.Update, h]
  refine ⟨by simp [LogicalCameraSensor.Update, h], ?_, ?_⟩
  · simp only [LogicalCameraSensor.Image]
    rw [Update_msg env _ now2 h1, Update_msg env self now1 h]
    simp [LogicalCameraSensor.Update, h, Frustum.SetPose]
  · intro old
    simp only [LogicalCameraSensor.Image]
    rw [Update_msg env { self with dataPtr := { self.dataPtr with msg := old } } now2 h,
      Update_msg env self now1 h]

/-- Witness for C4: two ticks of the sample sensor, at different times. -/
theorem Update_idempotent_witness :
    sampleSensor.dataPtr.initialized = true ∧
    ((sampleSensor.Update sampleEnv ⟨1, 0⟩).1.Update sampleEnv ⟨2, 500⟩).1.Image.model =
      (sampleSensor.Update sampleEnv ⟨1, 0⟩).1.Image.model :=
  ⟨rfl, (Update_idempotent sampleEnv sampleSensor ⟨1, 0⟩ ⟨2, 500⟩ rfl).2.1⟩

/-- C7: a failed publish is not fatal.  On an initialized sensor, whatever
the transport answers to `Publish`, `Update` returns true and leaves the same
private data, so the same report: sensor pose, detections and stamp. -/
theorem Update_publish_answer_ignored (env : Collaborators K B)
    (publish1 publish2 : Publisher → LogicalCameraImage K → Bool)
    (self : LogicalCameraSensor K B) (now : Time) (h : self.dataPtr.initialized = true) :
    (LogicalCameraSensor.Update { env with Publish := publish1 } self now).2 = true ∧
    (LogicalCameraSensor.Update { env with Publish := publish2 } self now).2 = true ∧
    (LogicalCameraSensor.Update { env with Publish := publish1 } self now).1.Image =
      (LogicalCameraSensor.Update { env with Publish := publish2 } self now).1.Image ∧
    (LogicalCameraSensor.Update { env with Publish := publish1 } self now).1.Image.stamp = now ∧
    (LogicalCameraSensor.Update { env with Publish := publish1 } self now).1.Image.pose =
      env.Pose self.base := by
  refine ⟨by simp [LogicalCameraSensor.Update, h], by simp [LogicalCameraSensor.Update, h], ?_, ?_, ?_⟩
  · simp only [LogicalCameraSensor.Image]
    rw [Update_msg _ self now h, Update_msg _ self now h]
  · simp only [LogicalCameraSensor.Image]
    rw [Update_msg _ self now h]
  · simp only [LogicalCameraSensor.Image]
    rw [Update_msg _ self now h]

/-- Witness for C7: the sample sensor with a transport that accepts and with
one that refuses; the refusal is on record and the report is the same. -/
theorem Update_publish_answer_ignored_witness :
    sampleSensor.dataPtr.initialized = true ∧
    ((sampleSensor.Update sampleEnvOffline ⟨7, 0⟩).1.publishLog.map Prod.snd = [false]) ∧
    (sampleSensor.Update sampleEnvOffline ⟨7, 0⟩).2 = true ∧
    (sampleSensor.Update sampleEnvOffline ⟨7, 0⟩).1.Image =
      (sampleSensor.Update sampleEnv ⟨7, 0⟩).1.Image :=
  ⟨rfl, rfl,
    (Update_publish_answer_ignored sampleEnv (fun _ _ => false) (fun _ _ => true)
      sampleSensor ⟨7, 0⟩ rfl).1,
    (Update_publish_answer_ignored sampleEnv (fun _ _ => false) (fun _ _ => true)
      sampleSensor ⟨7, 0⟩ rfl).2.2.1⟩

/-- C8: on an initialized sensor, after `Update now` the report carries the
stamp `(now.sec, now.nsec)` and the current sensor pose; that one pose is the
pose of the frustum after the tick, the pose at which containment was
tested, and the pose subtracted in every reported relative pose; the tick
does not move the sensor. -/
theorem Update_stamp_and_pose (env : Collaborators K B) (self : LogicalCameraSensor K B)
    (now : Time) (h : self.dataPtr.initialized = true) :
    (self.Update env now).1.Image.stamp.sec = now.sec ∧
    (self.Update env now).1.Image.stamp.nsec = now.nsec ∧
    (self.Update env now).1.Image.pose = env.Pose self.base ∧
    (self.Update env now).1.dataPtr.frustum.pose = env.Pose self.base ∧
    (self.Update env now).1.base = self.base ∧
    (self.Update env now).1.Image.model =
      (self.dataPtr.models.entries.filter
        (fun e => env.Contains { self.dataPtr.frustum with pose := env.Pose self.base } e.2.pos)).map
        (fun e => ⟨e.1, e.2 - env.Pose self.base⟩) := by
  simp only [LogicalCameraSensor.Image]
  rw [Update_msg env self now h]
  simp [LogicalCameraSensor.Update, h, Frustum.SetPose]

/-- Witness for C8: one tick of the sample sensor at time `(7, 250)`. -/
theorem Update_stamp_and_pose_witness :
    sampleSensor.dataPtr.initialized = true ∧
    (sampleSensor.Update sampleEnv ⟨7, 250⟩).1.Image.stamp.sec = 7 ∧
    (sampleSensor.Update sampleEnv ⟨7, 250⟩).1.Image.stamp.nsec = 250 ∧
    (sampleSensor.Update sampleEnv ⟨7, 250⟩).1.Image.pose = Pose3d.Zero :=
  ⟨rfl, (Update_stamp_and_pose sampleEnv sampleSensor ⟨7, 250⟩ rfl).1,
    (Update_stamp_and_pose sampleEnv sampleSensor ⟨7, 250⟩ rfl).2.1,
    (Update_stamp_and_pose sampleEnv sampleSensor ⟨7, 250⟩ rfl).2.2.1⟩

end UpdateClaims

/-! ## Claims about `Load` -/

section LoadClaims

variable {K : Type} {B : Type}

/-- An element whose name is not `sensor` leaves `cameraSdf` unset, and the
first read through it faults. -/
theorem Load_not_sensor (env : Collaborators K B) (self : LogicalCameraSensor K B)
    (_sdf : Element K) (h : _sdf.GetName ≠ "sensor") :
    self.Load env _sdf = .error Fault.nullDereference := by
  simp [LogicalCameraSensor.Load, h, deref]
  rfl

/-- A `sensor` element without a `logical_camera` child: `Load` returns false
and changes nothing. -/
theorem Load_no_camera (env : Collaborators K B) (self : LogicalCameraSensor K B)
    (_sdf : Element K) (h : _sdf.GetName = "sensor")
    (hc : _sdf.HasElement "logical_camera" = false) :
    self.Load env _sdf = .ok (self, false) := by
  simp [LogicalCameraSensor.Load, h, hc]
  rfl

/-- A child that `HasElement` reports is the one `GetElement` returns. -/
theorem HasElement_GetElement (e : Element K) (name : String)
    (h : e.HasElement name = true) : ∃ c, e.GetElement name = some c ∧ c.GetName = name := by
  simp only [Element.HasElement, List.any_eq_true] at h
  obtain ⟨c, hc, hn⟩ := h
  cases hf : e.GetElement name with
  | none =>
    simp only [Element.GetElement, List.find?_eq_none] at hf
    exact absurd hn (hf c hc)
  | some d =>
    simp only [Element.GetElement] at hf
    exact ⟨d, rfl, by simpa using List.find?_some hf⟩

/-- A `sensor` element with a `logical_camera` child: `Load` configures the
frustum, then returns what the base load and the advertisement allow. -/
theorem Load_sensor (env : Collaborators K B) (self : LogicalCameraSensor K B)
    (_sdf cam : Element K) (h : _sdf.GetName = "sensor")
    (hc : _sdf.GetElement "logical_camera" = some cam) :
    self.Load env _sdf = .ok
      (if (env.SensorLoad self.base _sdf).2 = false then
        ({ self with
          base := (env.SensorLoad self.base _sdf).1
          dataPtr := { self.dataPtr with frustum := loadedFrustum env self.dataPtr.frustum cam } },
          false)
      else if (env.Advertise (env.Topic (env.SensorLoad self.base _sdf).1)).valid = false then
        ({ self with
          base := (env.SensorLoad self.base _sdf).1
          dataPtr := { self.dataPtr with
            frustum := loadedFrustum env self.dataPtr.frustum cam
            pub := env.Advertise (env.Topic (env.SensorLoad self.base _sdf).1) } }, false)
      else
        ({ self with
          base := (env.SensorLoad self.base _sdf).1
          dataPtr := { self.dataPtr with
            frustum := loadedFrustum env self.dataPtr.frustum cam
            pub := env.Advertise (env.Topic (env.SensorLoad self.base _sdf).1)
            initialized := true } }, true)) := by
  have hh : _sdf.HasElement "logical_camera" = true := by
    simp only [Element.HasElement, List.any_eq_true]
    simp only [Element.GetElement] at hc
    have hn : (cam.GetName == "logical_camera") = true :=
      List.find?_some (p := fun c : Element K => c.GetName == "logical_camera") hc
    exact ⟨cam, List.mem_of_find?_eq_some hc, hn⟩
  simp only [LogicalCameraSensor.Load, h, hh, hc, deref, loadedFrustum]
  by_cases h1 : (env.SensorLoad self.base _sdf).2 = false
  · simp [h1]
    rfl
  · by_cases h2 : (env.Advertise (env.Topic (env.SensorLoad self.base _sdf).1)).valid = false
    · simp [h1, h2]
      rfl
    · simp [h1, h2]
      rfl

/-- A call keeps the flag, the report and the publish record unless it is a
`Load` that returns true or an `Update` on an initialized sensor. -/
theorem call_uninitialized [Field K] (env : Collaborators K B) (self : LogicalCameraSensor K B)
    (c : Call K B) (r : LogicalCameraSensor K B × Option Bool)
    (h0 : self.dataPtr.initialized = false) (hr : self.call env c = .ok r)
    (hl : loadReturnedTrue (c, r.2) = false) :
    r.1.dataPtr.initialized = false ∧ r.1.dataPtr.msg = self.dataPtr.msg ∧
      r.1.publishLog = self.publishLog := by
  cases c with
  | Load sdf =>
    by_cases hn : sdf.GetName = "sensor"
    · cases hc : sdf.HasElement "logical_camera" with
      | false =>
        simp only [LogicalCameraSensor.call, Load_no_camera env self sdf hn hc] at hr
        cases hr
        exact ⟨h0, rfl, rfl⟩
      | true =>
        obtain ⟨cam, hcam, -⟩ := HasElement_GetElement sdf _ hc
        simp only [LogicalCameraSensor.call, Load_sensor env self sdf cam hn hcam] at hr
        cases hr
        by_cases h1 : (env.SensorLoad self.base sdf).2 = false
        · simp [h1, h0]
        · by_cases h2 : (env.Advertise (env.Topic (env.SensorLoad self.base sdf).1)).valid = false
          · simp [h1, h2, h0]
          · simp [h1, h2, loadReturnedTrue] at hl
    · simp [LogicalCameraSensor.call, Load_not_sensor env self sdf hn] at hr
  | Init =>
    simp only [LogicalCameraSensor.call] at hr
    cases hr
    exact ⟨h0, rfl, rfl⟩
  | SetModelPoses models =>
    simp only [LogicalCameraSensor.call] at hr
    cases hr
    exact ⟨h0, rfl, rfl⟩
  | Update now =>
    simp only [LogicalCameraSensor.call] at hr
    cases hr
    simp [LogicalCameraSensor.Update, h0]
  | Base f =>
    simp only [LogicalCameraSensor.call] at hr
    cases hr
    exact ⟨h0, rfl, rfl⟩

/-- A history in which no `Load` returned true keeps the flag false, the
report as it was and the publish record as it was. -/
theorem run_uninitialized [Field K] (env : Collaborators K B) (calls : List (Call K B)) :
    ∀ (self final : LogicalCameraSensor K B) (trace : List (Call K B × Option Bool)),
      self.dataPtr.initialized = false → self.run env calls = .ok (final, trace) →
      trace.any loadReturnedTrue = false →
      final.dataPtr.initialized = false ∧ final.dataPtr.msg = self.dataPtr.msg ∧
        final.publishLog = self.publishLog := by
  induction calls with
  | nil =>
    intro self final trace h0 hr _
    simp only [LogicalCameraSensor.run] at hr
    cases hr
    exact ⟨h0, rfl, rfl⟩
  | cons c cs ih =>
    intro self final trace h0 hr ht
    simp only [LogicalCameraSensor.run] at hr
    cases hc : self.call env c with
    | error e => simp [hc] at hr
    | ok r =>
      simp only [hc] at hr
      cases hrs : LogicalCameraSensor.run env r.1 cs with
      | error e => simp [hrs] at hr
      | ok rs =>
        simp only [hrs] at hr
        cases hr
        simp only [List.any_cons, Bool.or_eq_false_iff] at ht
        have h1 := call_uninitialized env self c r h0 hc ht.1
        have h2 := ih r.1 rs.1 rs.2 h1.1 hrs ht.2
        exact ⟨h2.1, h2.2.1.trans h1.2.1, h2.2.2.trans h1.2.2⟩

/-- C2: on a sensor on which no call to `Load` has returned true (a freshly
constructed sensor after any history of calls in which every `Load` returned
false), `Update` returns false, leaves the object, so the last report,
unchanged and adds nothing to the record of published messages, which is
still empty. -/
theorem Update_without_successful_Load [Field K] (env : Collaborators K B) (base : B)
    (frustum : Frustum K) (calls : List (Call K B)) (final : LogicalCameraSensor K B)
    (trace : List (Call K B × Option Bool)) (now : Time)
    (hr : (LogicalCameraSensor.new base frustum).run env calls = .ok (final, trace))
    (hl : trace.any loadReturnedTrue = false) :
    (final.Update env now).2 = false ∧
    (final.Update env now).1 = final ∧
    (final.Update env now).1.Image = final.Image ∧
    (final.Update env now).1.publishLog = final.publishLog ∧
    final.publishLog = [] := by
  have h := run_uninitialized env calls (LogicalCameraSensor.new base frustum) final trace rfl hr hl
  have hu : final.Update env now = (final, false) := by
    simp [LogicalCameraSensor.Update, h.1]
  rw [hu]
  exact ⟨rfl, rfl, rfl, rfl, h.2.2⟩

/-- Witness for C2: a fresh sensor, two failed loads, a directory update and
an `Init`; the following `Update` returns false. -/
theorem Update_without_successful_Load_witness :
    ∃ final trace, freshSensor.run sampleEnvNoTopic failedLoads = .ok (final, trace) ∧
      trace.map Prod.snd = [some false, some false, none, some true, some false] ∧
      (final.Update sampleEnvNoTopic ⟨2, 0⟩).2 = false ∧
      (final.Update sampleEnvNoTopic ⟨2, 0⟩).1 = final :=
  ⟨_, _, rfl, rfl,
    (Update_without_successful_Load sampleEnvNoTopic Pose3d.Zero sampleFrustum failedLoads _ _
      ⟨2, 0⟩ rfl rfl).1,
    (Update_without_successful_Load sampleEnvNoTopic Pose3d.Zero sampleFrustum failedLoads _ _
      ⟨2, 0⟩ rfl rfl).2.1⟩

/-- Counterexample to C3: the description with `near = 5` and `far = 1` is
loaded with success on a fresh sensor; the flag is set, the inverted range is
stored and the following `Update` returns true.  With frustum setters that
validate, `Load` returns true all the same: it does not see their verdict. -/
theorem Load_inverted_range_counterexample :
    (∃ s, freshSensor.Load sampleEnv invertedSdf = .ok (s, true) ∧
      s.Near = 5 ∧ s.Far = 1 ∧ s.Far < s.Near ∧
      s.dataPtr.initialized = true ∧ (s.Update sampleEnv ⟨1, 0⟩).2 = true) ∧
    (∃ s, freshSensor.Load sampleEnvChecked invertedSdf = .ok (s, true) ∧
      s.dataPtr.initialized = true ∧ (s.Update sampleEnvChecked ⟨1, 0⟩).2 = true) :=
  ⟨⟨_, rfl, rfl, rfl, by decide, rfl, rfl⟩, ⟨_, rfl, rfl, rfl⟩⟩

/-- C3, amended: `Load` does not look at the order of near and far.  For a
`sensor` element with a `logical_camera` child whose near exceeds its far,
whatever the frustum setters do with the values, `Load` hands the four values
to the setters and returns true exactly when the base load succeeds and the
publisher is valid; when it returns true the flag is set and a following
`Update` returns true; when it returns false the flag keeps its value. -/
theorem Load_accepts_inverted_range [LinearOrderedField K] (env : Collaborators K B)
    (self : LogicalCameraSensor K B) (_sdf cam : Element K) (now : Time)
    (hn : _sdf.GetName = "sensor") (hc : _sdf.GetElement "logical_camera" = some cam)
    (_hinv : cam.Get (env.sdfDefault "far") "far" < cam.Get (env.sdfDefault "near") "near") :
    ∃ s, self.Load env _sdf = .ok (s,
        (env.SensorLoad self.base _sdf).2 &&
          (env.Advertise (env.Topic (env.SensorLoad self.base _sdf).1)).valid) ∧
      s.dataPtr.frustum = loadedFrustum env self.dataPtr.frustum cam ∧
      (((env.SensorLoad self.base _sdf).2 &&
          (env.Advertise (env.Topic (env.SensorLoad self.base _sdf).1)).valid) = true →
        s.dataPtr.initialized = true ∧ (s.Update env now).2 = true) ∧
      (((env.SensorLoad self.base _sdf).2 &&
          (env.Advertise (env.Topic (env.SensorLoad self.base _sdf).1)).valid) = false →
        s.dataPtr.initialized = self.dataPtr.initialized) := by
  rw [Load_sensor env self _sdf cam hn hc]
  cases h1 : (env.SensorLoad self.base _sdf).2 with
  | false =>
    simp only [if_true, Bool.false_and]
    exact ⟨_, rfl, rfl, by simp, fun _ => rfl⟩
  | true =>
    cases h2 : (env.Advertise (env.Topic (env.SensorLoad self.base _sdf).1)).valid with
    | false =>
      simp only [Bool.true_eq_false, if_false, if_true, Bool.and_false]
      exact ⟨_, rfl, rfl, by simp, fun _ => rfl⟩
    | true =>
      simp only [Bool.true_eq_false, if_false, Bool.and_true]
      exact ⟨_, rfl, rfl, fun _ => ⟨rfl, by simp [LogicalCameraSensor.Update]⟩, by simp⟩

/-- Witness for C3, amended: the inverted description on a fresh sensor. -/
theorem Load_accepts_inverted_range_witness :
    invertedSdf.GetName = "sensor" ∧
    (∃ s, freshSensor.Load sampleEnv invertedSdf = .ok (s, true) ∧
      s.dataPtr.initialized = true) := by
  have hc : invertedSdf.GetElement "logical_camera" = some
      (.mk "logical_camera" 0
        [.mk "near" 5 [], .mk "far" 1 [], .mk "horizontal_fov" 1 [], .mk "aspect_ratio" 1 []]) :=
    rfl
  obtain ⟨s, h1, -, h3, -⟩ :=
    Load_accepts_inverted_range sampleEnv freshSensor invertedSdf _ ⟨1, 0⟩ rfl hc (by decide)
  exact ⟨rfl, s, h1, (h3 rfl).1⟩

/-- Counterexample to C6: a fresh sensor is loaded with success and `Init` is
never called; `Update` returns true and replaces the last report. -/
theorem Update_in_state_Loaded_counterexample :
    ∃ s trace,
      freshSensor.run sampleEnv [.Load sampleSdf, .SetModelPoses sampleModels] = .ok (s, trace) ∧
      trace.map Prod.snd = [some true, none] ∧
      (s.Update sampleEnv ⟨7, 0⟩).2 = true ∧
      (s.Update sampleEnv ⟨7, 0⟩).1.Image ≠ s.Image := by
  refine ⟨_, _, rfl, rfl, rfl, ?_⟩
  intro h
  exact absurd (congrArg (fun m => m.stamp.sec) h) (by decide)

/-- After a call the flag is set exactly when it was set before or the call
is a `Load` that returned true: no call clears it, only `Load` sets it. -/
theorem call_flag [Field K] (env : Collaborators K B) (self : LogicalCameraSensor K B)
    (c : Call K B) (r : LogicalCameraSensor K B × Option Bool)
    (hr : self.call env c = .ok r) :
    r.1.dataPtr.initialized = (self.dataPtr.initialized || loadReturnedTrue (c, r.2)) := by
  cases c with
  | Load sdf =>
    by_cases hn : sdf.GetName = "sensor"
    · cases hc : sdf.HasElement "logical_camera" with
      | false =>
        simp only [LogicalCameraSensor.call, Load_no_camera env self sdf hn hc] at hr
        cases hr
        simp [loadReturnedTrue]
      | true =>
        obtain ⟨cam, hcam, -⟩ := HasElement_GetElement sdf _ hc
        simp only [LogicalCameraSensor.call, Load_sensor env self sdf cam hn hcam] at hr
        cases hr
        by_cases h1 : (env.SensorLoad self.base sdf).2 = false
        · simp [h1, loadReturnedTrue]
        · by_cases h2 : (env.Advertise (env.Topic (env.SensorLoad self.base sdf).1)).valid = false
          · simp [h1, h2, loadReturnedTrue]
          · simp [h1, h2, loadReturnedTrue]
    · simp [LogicalCameraSensor.call, Load_not_sensor env self sdf hn] at hr
  | Init =>
    simp only [LogicalCameraSensor.call] at hr
    cases hr
    simp [loadReturnedTrue, LogicalCameraSensor.Init]
  | SetModelPoses models =>
    simp only [LogicalCameraSensor.call] at hr
    cases hr
    simp [loadReturnedTrue, LogicalCameraSensor.SetModelPoses]
  | Update now =>
    simp only [LogicalCameraSensor.call] at hr
    cases hr
    cases h0 : self.dataPtr.initialized <;> simp [LogicalCameraSensor.Update, h0, loadReturnedTrue]
  | Base f =>
    simp only [LogicalCameraSensor.call] at hr
    cases hr
    simp [loadReturnedTrue]

/-- After a history the flag is set exactly when it was set at the start or
some `Load` of the history returned true. -/
theorem run_flag [Field K] (env : Collaborators K B) (calls : List (Call K B)) :
    ∀ (self final : LogicalCameraSensor K B) (trace : List (Call K B × Option Bool)),
      self.run env calls = .ok (final, trace) →
      final.dataPtr.initialized = (self.dataPtr.initialized || trace.any loadReturnedTrue) := by
  induction calls with
  | nil =>
    intro self final trace hr
    simp only [LogicalCameraSensor.run] at hr
    cases hr
    simp
  | cons c cs ih =>
    intro self final trace hr
    simp only [LogicalCameraSensor.run] at hr
    cases hc : self.call env c with
    | error e => simp [hc] at hr
    | ok r =>
      simp only [hc] at hr
      cases hrs : LogicalCameraSensor.run env r.1 cs with
      | error e => simp [hrs] at hr
      | ok rs =>
        simp only [hrs] at hr
        cases hr
        rw [ih r.1 rs.1 rs.2 hrs, call_flag env self c r hc, List.any_cons, Bool.or_assoc]

/-- C6, amended: what lets `Update` run is a successful `Load`, not `Init`.
After any history of calls on a freshly constructed sensor (loads, `Init`,
directory updates, ticks, base-class methods, in any order), the flag is set
exactly when some `Load` of the history returned true; `Update` returns false
exactly when none did, and is then a no-op; it returns true exactly when one
did, whether or not the history holds an `Init`; and `Init` leaves the
private data alone, so it does not change what `Update` returns. -/
theorem Update_gate_is_Load [Field K] (env : Collaborators K B) (base : B)
    (frustum : Frustum K) (calls : List (Call K B)) (final : LogicalCameraSensor K B)
    (trace : List (Call K B × Option Bool)) (now : Time)
    (hr : (LogicalCameraSensor.new base frustum).run env calls = .ok (final, trace)) :
    final.dataPtr.initialized = trace.any loadReturnedTrue ∧
    ((final.Update env now).2 = false ↔ trace.any loadReturnedTrue = false) ∧
    ((final.Update env now).2 = true ↔ trace.any loadReturnedTrue = true) ∧
    (trace.any loadReturnedTrue = false → (final.Update env now).1 = final) ∧
    (final.Init env).1.dataPtr = final.dataPtr ∧
    ((final.Init env).1.Update env now).2 = (final.Update env now).2 := by
  have hflag : final.dataPtr.initialized = trace.any loadReturnedTrue := by
    rw [run_flag env calls (LogicalCameraSensor.new base frustum) final trace hr]
    simp [LogicalCameraSensor.new]
  rw [← hflag]
  refine ⟨rfl, ?_, ?_, ?_, rfl, ?_⟩
  · cases hs : final.dataPtr.initialized <;> simp [LogicalCameraSensor.Update, hs]
  · cases hs : final.dataPtr.initialized <;> simp [LogicalCameraSensor.Update, hs]
  · intro hs
    simp [LogicalCameraSensor.Update, hs]
  · cases hs : final.dataPtr.initialized <;>
      simp [LogicalCameraSensor.Update, LogicalCameraSensor.Init, hs]

/-- Witness for C6, amended: a fresh sensor is loaded with success, gets a
directory and ticks once, and `Init` is never called; the next `Update`
returns true. -/
theorem Update_gate_is_Load_witness :
    ∃ final trace,
      freshSensor.run sampleEnv [.Load sampleSdf, .SetModelPoses sampleModels, .Update ⟨1, 0⟩] =
        .ok (final, trace) ∧
      trace.map Prod.snd = [some true, none, some true] ∧
      trace.any loadReturnedTrue = true ∧
      (final.Update sampleEnv ⟨7, 0⟩).2 = true :=
  ⟨_, _, rfl, rfl, rfl,
    ((Update_gate_is_Load sampleEnv Pose3d.Zero sampleFrustum
      [.Load sampleSdf, .SetModelPoses sampleModels, .Update ⟨1, 0⟩] _ _ ⟨7, 0⟩ rfl).2.2.1).mpr rfl⟩

/-- C10, at its failing input: the `logical_camera` element handed to `Load`
without its `sensor` parent.  `cameraSdf` stays unset and the read of `near`
goes through it. -/
theorem Load_bare_camera_element_faults :
    bareCameraSdf.GetName ≠ "sensor" ∧
    freshSensor.Load sampleEnv bareCameraSdf = .error Fault.nullDereference :=
  ⟨by decide, rfl⟩

end LoadClaims

/-! ## The relative pose -/

section RelativePose

variable {K : Type} [Field K] {B : Type}

/-- The inverse of a unit quaternion is its conjugate. -/
theorem Quaterniond.Inverse_of_unit (q : Quaterniond K) (h : q.normSq = 1) :
    q.Inverse = ⟨q.w, -q.x, -q.y, -q.z⟩ := by
  simp [Quaterniond.Inverse, h]

/-- The conjugate of a unit quaternion is a unit quaternion. -/
theorem Quaterniond.normSq_conj (q : Quaterniond K) (h : q.normSq = 1) :
    (Quaterniond.mk q.w (-q.x) (-q.y) (-q.z)).normSq = 1 := by
  simp only [Quaterniond.normSq] at h ⊢
  linear_combination h

/-- Re-applying a pose with unit orientation to a pose relative to it gives
the pose back. -/
theorem Pose3d.compose_sub (S P : Pose3d K) (h : S.rot.normSq = 1) :
    S.compose (P - S) = P := by
  have hc := Quaterniond.normSq_conj S.rot h
  have hi := Quaterniond.Inverse_of_unit S.rot h
  have hii : (Quaterniond.mk S.rot.w (-S.rot.x) (-S.rot.y) (-S.rot.z)).Inverse = S.rot := by
    rw [Quaterniond.Inverse_of_unit _ hc]
    simp
  obtain ⟨⟨sx, sy, sz⟩, ⟨w, x, y, z⟩⟩ := S
  obtain ⟨⟨px, py, pz⟩, ⟨pw, qx, qy, qz⟩⟩ := P
  simp only [Quaterniond.normSq] at h
  show Pose3d.compose _ (Pose3d.sub _ _) = _
  simp only [Pose3d.compose, Pose3d.sub, Pose3d.Inverse, Quaterniond.RotateVector, hi, hii,
    Quaterniond.mul, Vector3d.add, Vector3d.neg, Pose3d.mk.injEq, Vector3d.mk.injEq,
    Quaterniond.mk.injEq]
  refine ⟨⟨?_, ?_, ?_⟩, ?_, ?_, ?_, ?_⟩
  · linear_combination (px - sx) * (w * w + x * x + y * y + z * z + 1) * h
  · linear_combination (py - sy) * (w * w + x * x + y * y + z * z + 1) * h
  · linear_combination (pz - sz) * (w * w + x * x + y * y + z * z + 1) * h
  · linear_combination pw * h
  · linear_combination qx * h
  · linear_combination qy * h
  · linear_combination qz * h

/-- C5: round trip of the relative pose.  On an initialized sensor whose
world pose `S` has a unit orientation, every entry `(id, R)` of the report
built by `Update` comes from an entry `(id, P)` of the directory that the
frustum contains, with `R = P - S` and `compose S R = P`. -/
theorem Update_relative_pose_round_trip (env : Collaborators K B)
    (self : LogicalCameraSensor K B) (now : Time) (h : self.dataPtr.initialized = true)
    (hunit : (env.Pose self.base).rot.normSq = 1) :
    ∀ m ∈ (self.Update env now).1.Image.model,
      ∃ P, (m.name, P) ∈ self.dataPtr.models.entries ∧
        env.Contains (self.dataPtr.frustum.SetPose (env.Pose self.base)) P.pos = true ∧
        m.pose = P - env.Pose self.base ∧
        (env.Pose self.base).compose m.pose = P := by
  intro m hm
  simp only [LogicalCameraSensor.Image] at hm
  rw [Update_msg env self now h] at hm
  obtain ⟨e, he, rfl⟩ := List.mem_map.mp hm
  have hf := List.mem_filter.mp he
  exact ⟨e.2, hf.1, hf.2, rfl, Pose3d.compose_sub _ _ hunit⟩

/-- Witness for C5: the turned sensor sees `box1`; composing its pose with
the reported relative pose gives the world pose of `box1`. -/
theorem Update_relative_pose_round_trip_witness :
    turnedSensor.dataPtr.initialized = true ∧
    (sampleEnv.Pose turnedSensor.base).rot.normSq = 1 ∧
    (turnedSensor.Update sampleEnv ⟨7, 0⟩).1.Image.model.map Model.name = ["box1"] ∧
    (∀ m ∈ (turnedSensor.Update sampleEnv ⟨7, 0⟩).1.Image.model,
      ∃ P, (m.name, P) ∈ turnedSensor.dataPtr.models.entries ∧
        (sampleEnv.Pose turnedSensor.base).compose m.pose = P) := by
  have hunit : (sampleEnv.Pose turnedSensor.base).rot.normSq = 1 := by
    norm_num [sampleEnv, turnedSensor, Quaterniond.normSq]
  refine ⟨rfl, hunit, ?_, ?_⟩
  · simp only [LogicalCameraSensor.Image]
    rw [Update_msg sampleEnv turnedSensor ⟨7, 0⟩ rfl]
    norm_num [turnedSensor, sampleSensor, sampleEnv, sampleModels, Frustum.SetPose, Pose3d.Zero]
  · intro m hm
    obtain ⟨P, h1, -, -, h4⟩ :=
      Update_relative_pose_round_trip sampleEnv turnedSensor ⟨7, 0⟩ rfl hunit m hm
    exact ⟨P, h1, h4⟩

end RelativePose

/-! ## The lock discipline -/

/-- C9, at its failing input: `Update` reads the directory under the mutex,
whatever the number of entries, but `SetModelPoses` writes it without taking
the mutex.  With one thread in `Update` over two entries and another calling
`SetModelPoses`, the schedule below runs to the end, and the write happens
between the two reads, while the first thread owns the mutex. -/
theorem SetModelPoses_not_under_mutex :
    (∀ n, underMutex false (UpdateAccesses n) = true) ∧
    underMutex false SetModelPosesAccesses = false ∧
    ∃ final events,
      Threads.exec ⟨none, [UpdateAccesses 2, SetModelPosesAccesses]⟩
        [0, 0, 0, 0, 0, 0, 1, 0, 0, 0, 0, 0] = some (final, events) ∧
      final.todo = [[], []] ∧
      events.filter Event.onModels =
        [⟨0, .readModels, some 0⟩, ⟨1, .writeModels, some 0⟩, ⟨0, .readModels, some 0⟩] := by
  refine ⟨?_, rfl, _, _, rfl, rfl, rfl⟩
  intro n
  have hloop : ∀ (k : Nat) (rest : List Access),
      underMutex true (List.replicate k Access.readModels ++ rest) = underMutex true rest := by
    intro k rest
    induction k with
    | zero => rfl
    | succ k ih => simp [List.replicate_succ, underMutex, ih]
  have h := hloop n [Access.other, Access.other, Access.other, Access.unlock]
  simp only [underMutex] at h
  simpa [UpdateAccesses, underMutex] using h

end LogicalCamera
